import Mathlib

/-!
Shallow embedding of `sequence_labeling/model/seq_crf.py`.

The repository is TensorFlow graph-wiring code: the model class `SequenceCRF`
composes pre-built framework layers (embedding lookup, convolution, recurrent
cells, dense projection, CRF loss/decode) into a symbolic computation graph.
We embed graph construction faithfully as the construction of symbolic tensor
expression trees: each framework layer application becomes an uninterpreted
constructor carrying exactly the configuration arguments the source passes to
the corresponding `create_*_layer` factory.  Device placement arguments
(`num_gpus`, `default_gpu_id`), the `regularizer` object threaded into layer
factories, and logger calls are not modelled: they do not affect the wiring
the claims are about.  Framework behaviour (e.g. Python tuple unpacking,
`tf.control_dependencies`, `tf.train.Saver`, `ExponentialMovingAverage`
naming) is modelled explicitly where the source relies on it.
-/

/-- Configuration of an embedding layer, from
`create_embedding_layer(vocab_size, embed_dim, pretrained, 0, 0, random_seed, trainable)`. -/
structure EmbedConfig where
  vocab_size : Nat
  embed_dim : Nat
  pretrained : Bool
  random_seed : Nat
  trainable : Bool
deriving Repr

/-- Configuration of a convolution layer, from
`create_convolution_layer("stacked_multi_1d", 1, embed_dim, unit_dim, window_size, 1,
"SAME", activation, [dropout], None, False, False, ..., random_seed, trainable)`
(CharFeat.__init__, seq_crf.py lines 410-412). -/
structure ConvConfig where
  conv_type : String
  num_layer : Nat
  input_unit_dim : Nat
  output_unit_dim : Nat
  window_size : Nat
  stride : Nat
  padding_type : String
  activation : String
  dropoutList : List Rat
  enable_residual : Bool
  enable_norm : Bool
  random_seed : Nat
  trainable : Bool
deriving Repr

/-- Configuration of the fusion module, from `FusionModule(input_unit_dim=...,
output_unit_dim=..., fusion_type=..., num_layer=..., activation=..., dropout=...,
..., random_seed=..., trainable=...)` (seq_crf.py lines 192-195). -/
structure FusionConfig where
  input_unit_dim : Nat
  output_unit_dim : Nat
  fusion_type : String
  num_layer : Nat
  activation : String
  dropout : Rat
  random_seed : Nat
  trainable : Bool
deriving Repr

/-- Configuration of the recurrent layer, from
`create_recurrent_layer("bi", sequence_num_layer, sequence_unit_dim, sequence_cell_type,
sequence_hidden_activation, sequence_dropout, sequence_forget_bias,
sequence_residual_connect, None, ..., random_seed, sequence_trainable)`
(seq_crf.py lines 219-221). -/
structure RnnConfig where
  direction : String
  num_layer : Nat
  unit_dim : Nat
  cell_type : String
  activation : String
  dropout : Rat
  forget_bias : Rat
  residual_connect : Bool
  random_seed : Nat
  trainable : Bool
deriving Repr

/-- Configuration of the dense projection layer, from
`create_dense_layer("single", 1, projection_unit_dim, 1, "", [0.0], None, False, False,
..., random_seed, projection_trainable)` (seq_crf.py lines 226-227). -/
structure DenseConfig where
  dense_type : String
  num_layer : Nat
  unit_dim : Nat
  inner_scale : Nat
  activation : String
  dropoutList : List Rat
  enable_norm : Bool
  enable_residual : Bool
  random_seed : Nat
  trainable : Bool
deriving Repr

mutual
/-- Symbolic TensorFlow tensors: each framework op or layer application the
source performs becomes a constructor.  Layers whose internals live outside
this repository (embedding, convolution, pooling, fusion, recurrent, dense,
dropout, CRF ops) are uninterpreted: the constructor records the configuration
and the input tensors, nothing more. -/
inductive Tensor : Type where
  | pipelineInput : String → Tensor
  | litNum : Rat → Tensor
  | reduceSum : Tensor → Int → Tensor
  | reduceMean : Tensor → Tensor
  | squeeze : Tensor → Int → Tensor
  | expandDims : Tensor → Int → Tensor
  | mul : Tensor → Tensor → Tensor
  | add : Tensor → Tensor → Tensor
  | embedLookup : EmbedConfig → Tensor → Tensor
  | dropoutOut : Rat → Tensor → Tensor
  | dropoutMaskOut : Rat → Tensor → Tensor
  | convOut : ConvConfig → Tensor → Tensor
  | convMaskOut : ConvConfig → Tensor → Tensor
  | poolOut : String → Int → Tensor → Tensor
  | poolMaskOut : String → Int → Tensor → Tensor
  | fusionOut : FusionConfig → TensorList → TensorList → Tensor
  | fusionMaskOut : FusionConfig → TensorList → TensorList → Tensor
  | biRnnOut : RnnConfig → Tensor → Tensor → Tensor
  | biRnnMaskOut : RnnConfig → Tensor → Tensor → Tensor
  | denseOut : DenseConfig → Tensor → Tensor → Tensor
  | denseMaskOut : DenseConfig → Tensor → Tensor → Tensor
  | crfDecodeTags : Tensor → Tensor → Tensor → Tensor
  | crfDecodeScore : Tensor → Tensor → Tensor → Tensor
  | crfLogLikelihood : Tensor → Tensor → Tensor → Tensor → Tensor
  | crfTransitionParams : Tensor → Tensor → Tensor → Tensor → Tensor
  | regularizationLoss : Tensor

/-- A list of symbolic tensors (the Python lists `text_feat_list` /
`text_feat_mask_list` handed to the fusion module). -/
inductive TensorList : Type where
  | nil : TensorList
  | cons : Tensor → TensorList → TensorList
end

/-- Convert a Lean list of tensors into a `TensorList`. -/
def TensorList.ofList : List Tensor → TensorList
  | [] => TensorList.nil
  | t :: ts => TensorList.cons t (TensorList.ofList ts)

/-- `tf.contrib.crf.crf_decode(potentials, transition_params, sequence_length)`:
returns the pair (decode_tags, best_score). -/
def crf_decode (potentials transition_params sequence_length : Tensor) : Tensor × Tensor :=
  (Tensor.crfDecodeTags potentials transition_params sequence_length,
   Tensor.crfDecodeScore potentials transition_params sequence_length)

/-- `tf.contrib.crf.crf_log_likelihood(inputs, tag_indices, sequence_lengths,
transition_params)`: returns the pair (log_likelihood, transition_params). -/
def crf_log_likelihood (inputs tag_indices sequence_lengths transition_params : Tensor) :
    Tensor × Tensor :=
  (Tensor.crfLogLikelihood inputs tag_indices sequence_lengths transition_params,
   Tensor.crfTransitionParams inputs tag_indices sequence_lengths transition_params)

/-- The hyperparameter fields of `self.hyperparams` that `SequenceCRF` reads.
Dropout rates and numeric rates are rationals (the source uses Python floats
only as configuration constants, never in arithmetic we model). -/
structure Hyperparams where
  data_word_vocab_size : Nat
  model_word_embed_dim : Nat
  model_word_dropout : Rat
  model_word_embed_pretrained : Bool
  model_word_feat_trainable : Bool
  model_word_feat_enable : Bool
  data_char_vocab_size : Nat
  model_char_embed_dim : Nat
  model_char_unit_dim : Nat
  model_char_window_size : Nat
  model_char_hidden_activation : String
  model_char_dropout : Rat
  model_char_pooling_type : String
  model_char_feat_trainable : Bool
  model_char_feat_enable : Bool
  model_fusion_type : String
  model_fusion_num_layer : Nat
  model_fusion_unit_dim : Nat
  model_fusion_hidden_activation : String
  model_fusion_dropout : Rat
  model_fusion_trainable : Bool
  model_sequence_num_layer : Nat
  model_sequence_unit_dim : Nat
  model_sequence_cell_type : String
  model_sequence_hidden_activation : String
  model_sequence_dropout : Rat
  model_sequence_forget_bias : Rat
  model_sequence_residual_connect : Bool
  model_sequence_trainable : Bool
  model_projection_unit_dim : Nat
  model_projection_trainable : Bool
  train_random_seed : Nat
  train_ema_enable : Bool
  train_ema_decay_rate : Rat
  train_regularization_enable : Bool
  train_num_epoch : Nat
  train_ckpt_output_dir : String
deriving Repr

/-- The batch inputs the data pipeline supplies (seq_crf.py lines 36-41). -/
structure DataPipeline where
  input_text_word : Tensor
  input_text_word_mask : Tensor
  input_text_char : Tensor
  input_text_char_mask : Tensor
  input_label : Tensor
  input_label_mask : Tensor

/-- `WordFeat.__init__` state: the layer hyperparameters (seq_crf.py lines 332-353). -/
structure WordFeat where
  vocab_size : Nat
  embed_dim : Nat
  dropout : Rat
  pretrained : Bool
  random_seed : Nat
  trainable : Bool
deriving Repr

/-- `WordFeat.__call__` (seq_crf.py lines 355-369): embed the word ids, squeeze
axis -2, multiply elementwise by the mask, then apply the dropout layer. -/
def WordFeat.call (l : WordFeat) (input_word input_word_mask : Tensor) : Tensor × Tensor :=
  let embedCfg : EmbedConfig :=
    ⟨l.vocab_size, l.embed_dim, l.pretrained, l.random_seed, l.trainable⟩
  let input_word_embedding_mask := input_word_mask
  let input_word_embedding :=
    Tensor.mul (Tensor.squeeze (Tensor.embedLookup embedCfg input_word) (-2))
      input_word_embedding_mask
  let input_word_dropout := Tensor.dropoutOut l.dropout input_word_embedding
  let input_word_dropout_mask := Tensor.dropoutMaskOut l.dropout input_word_embedding_mask
  (input_word_dropout, input_word_dropout_mask)

/-- `CharFeat.__init__` state: the layer hyperparameters (seq_crf.py lines 377-414). -/
structure CharFeat where
  vocab_size : Nat
  embed_dim : Nat
  unit_dim : Nat
  window_size : Nat
  activation : String
  pooling_type : String
  dropout : Rat
  random_seed : Nat
  trainable : Bool
deriving Repr

/-- `CharFeat.__call__` (seq_crf.py lines 416-432): expand the char mask on the
last axis, embed the char ids, multiply elementwise by the expanded mask, then
apply the convolution layer and the pooling layer. -/
def CharFeat.call (l : CharFeat) (input_char input_char_mask : Tensor) : Tensor × Tensor :=
  let embedCfg : EmbedConfig := ⟨l.vocab_size, l.embed_dim, false, l.random_seed, l.trainable⟩
  let convCfg : ConvConfig :=
    ⟨"stacked_multi_1d", 1, l.embed_dim, l.unit_dim, l.window_size, 1, "SAME",
      l.activation, [l.dropout], false, false, l.random_seed, l.trainable⟩
  let input_char_embedding_mask := Tensor.expandDims input_char_mask (-1)
  let input_char_embedding :=
    Tensor.mul (Tensor.embedLookup embedCfg input_char) input_char_embedding_mask
  let input_char_conv := Tensor.convOut convCfg input_char_embedding
  let input_char_conv_mask := Tensor.convMaskOut convCfg input_char_embedding_mask
  let input_char_pool := Tensor.poolOut l.pooling_type (-1) input_char_conv
  let input_char_pool_mask := Tensor.poolMaskOut l.pooling_type (-1) input_char_conv_mask
  (input_char_pool, input_char_pool_mask)

/-- `FusionModule.__call__`: the fusion layer applied to the feature streams
and their masks (framework layer; uninterpreted output). -/
def FusionModule.call (cfg : FusionConfig) (feats masks : List Tensor) : Tensor × Tensor :=
  (Tensor.fusionOut cfg (TensorList.ofList feats) (TensorList.ofList masks),
   Tensor.fusionMaskOut cfg (TensorList.ofList feats) (TensorList.ofList masks))

namespace SequenceCRF

/-- The `WordFeat(...)` instance constructed in `_build_representation_layer`
(seq_crf.py lines 162-163), with the mode-dependent dropout of line 135. -/
def wordFeatLayer (hp : Hyperparams) (mode : String) : WordFeat :=
  ⟨hp.data_word_vocab_size, hp.model_word_embed_dim,
    (if mode = "train" then hp.model_word_dropout else 0),
    hp.model_word_embed_pretrained, hp.train_random_seed, hp.model_word_feat_trainable⟩

/-- The `CharFeat(...)` instance constructed in `_build_representation_layer`
(seq_crf.py lines 178-181), with the mode-dependent dropout of line 144. -/
def charFeatLayer (hp : Hyperparams) (mode : String) : CharFeat :=
  ⟨hp.data_char_vocab_size, hp.model_char_embed_dim, hp.model_char_unit_dim,
    hp.model_char_window_size, hp.model_char_hidden_activation, hp.model_char_pooling_type,
    (if mode = "train" then hp.model_char_dropout else 0),
    hp.train_random_seed, hp.model_char_feat_trainable⟩

/-- `SequenceCRF._build_representation_layer` (seq_crf.py lines 127-199):
optionally append the word-level feature stream, then optionally append the
char-level feature stream, then fuse the collected streams with a
`FusionModule` whose input dimension is `word_unit_dim + char_unit_dim`. -/
def buildRepresentationLayer (hp : Hyperparams) (mode : String)
    (text_word text_word_mask text_char text_char_mask : Tensor) : Tensor × Tensor :=
  let fusion_dropout := if mode = "train" then hp.model_fusion_dropout else 0
  let text_feat_list : List Tensor := []
  let text_feat_mask_list : List Tensor := []
  let (text_feat_list, text_feat_mask_list, word_unit_dim) :=
    if hp.model_word_feat_enable then
      let word_feat_layer := wordFeatLayer hp mode
      let (text_word_feat, text_word_feat_mask) :=
        word_feat_layer.call text_word text_word_mask
      (text_feat_list ++ [text_word_feat], text_feat_mask_list ++ [text_word_feat_mask],
        hp.model_word_embed_dim)
    else
      (text_feat_list, text_feat_mask_list, 0)
  let (text_feat_list, text_feat_mask_list, char_unit_dim) :=
    if hp.model_char_feat_enable then
      let char_feat_layer := charFeatLayer hp mode
      let (text_char_feat, text_char_feat_mask) :=
        char_feat_layer.call text_char text_char_mask
      (text_feat_list ++ [text_char_feat], text_feat_mask_list ++ [text_char_feat_mask],
        hp.model_char_unit_dim)
    else
      (text_feat_list, text_feat_mask_list, 0)
  let feat_unit_dim := word_unit_dim + char_unit_dim
  let fusionCfg : FusionConfig :=
    ⟨feat_unit_dim, hp.model_fusion_unit_dim, hp.model_fusion_type,
      hp.model_fusion_num_layer, hp.model_fusion_hidden_activation, fusion_dropout,
      hp.train_random_seed, hp.model_fusion_trainable⟩
  FusionModule.call fusionCfg text_feat_list text_feat_mask_list

/-- `SequenceCRF._build_modeling_layer` (seq_crf.py lines 201-235): a
bidirectional recurrent layer followed by a single dense projection layer. -/
def buildModelingLayer (hp : Hyperparams) (mode : String)
    (text_feat text_feat_mask : Tensor) : Tensor × Tensor :=
  let sequence_dropout := if mode = "train" then hp.model_sequence_dropout else 0
  let rnnCfg : RnnConfig :=
    ⟨"bi", hp.model_sequence_num_layer, hp.model_sequence_unit_dim,
      hp.model_sequence_cell_type, hp.model_sequence_hidden_activation, sequence_dropout,
      hp.model_sequence_forget_bias, hp.model_sequence_residual_connect,
      hp.train_random_seed, hp.model_sequence_trainable⟩
  let text_sequence_modeling := Tensor.biRnnOut rnnCfg text_feat text_feat_mask
  let text_sequence_modeling_mask := Tensor.biRnnMaskOut rnnCfg text_feat text_feat_mask
  let denseCfg : DenseConfig :=
    ⟨"single", 1, hp.model_projection_unit_dim, 1, "", [0], false, false,
      hp.train_random_seed, hp.model_projection_trainable⟩
  let text_projection_modeling :=
    Tensor.denseOut denseCfg text_sequence_modeling text_sequence_modeling_mask
  let text_projection_modeling_mask :=
    Tensor.denseMaskOut denseCfg text_sequence_modeling text_sequence_modeling_mask
  (text_projection_modeling, text_projection_modeling_mask)

/-- `SequenceCRF._build_graph` (seq_crf.py lines 237-254): representation layer
then modeling layer; returns the TWO-tuple `(predict, predict_mask)`. -/
def buildGraph (hp : Hyperparams) (mode : String)
    (text_word text_word_mask text_char text_char_mask : Tensor) : Tensor × Tensor :=
  let (text_feat, text_feat_mask) :=
    buildRepresentationLayer hp mode text_word text_word_mask text_char text_char_mask
  let (text_modeling, text_modeling_mask) := buildModelingLayer hp mode text_feat text_feat_mask
  (text_modeling, text_modeling_mask)

/-- The value of `self._build_graph(...)` as a Python tuple, i.e. as the list of
its components (it has exactly two). -/
def buildGraphResultTuple (hp : Hyperparams) (mode : String)
    (text_word text_word_mask text_char text_char_mask : Tensor) : List Tensor :=
  let (predict, predict_mask) :=
    buildGraph hp mode text_word text_word_mask text_char text_char_mask
  [predict, predict_mask]

end SequenceCRF

/-- Python exceptions the modelled code can raise. -/
inductive PyError : Type where
  | valueError : String → PyError
  | fileNotFoundError : String → PyError
deriving Repr, DecidableEq

/-- Python tuple unpacking `a, b, c = t`: succeeds exactly when the tuple has
three components, otherwise raises `ValueError`. -/
def unpackThree (t : List Tensor) : Except PyError (Tensor × Tensor × Tensor) :=
  match t with
  | [a, b, c] => Except.ok (a, b, c)
  | _ => Except.error (PyError.valueError "not enough values to unpack")

/-- `tf.train.ExponentialMovingAverage.average_name(v)`: the name of the shadow
variable kept for `v`. -/
def emaAverageName (v : String) : String := v ++ "/ExponentialMovingAverage"

/-- A value a `tf.train.Saver` entry can point at: the raw trainable variable,
or its EMA shadow copy (`ema.average(v)`). -/
inductive VarRef : Type where
  | raw : String → VarRef
  | emaShadow : String → VarRef
deriving Repr, DecidableEq

/-- A `tf.train.Saver(var_lookup, max_to_keep=...)`: the variable lookup it was
constructed over and its retention bound (`none` when the default is used). -/
structure Saver where
  var_lookup : List (String × VarRef)
  max_to_keep : Option Nat
deriving Repr, DecidableEq

/-- The graph operations built in train mode (`_minimize_loss`, `ema.apply`,
`tf.control_dependencies`). `withControlDeps deps op` is `op` created under
`tf.control_dependencies(deps)`: it runs only after every op in `deps`. -/
inductive Op : Type where
  | minimizeLoss : Tensor → Op
  | emaApply : List String → Op
  | withControlDeps : List Op → Op → Op

/-- The inference-mode attributes set at seq_crf.py lines 55-61. -/
structure InferOut where
  infer_predict : Tensor
  infer_predict_mask : Tensor

/-- The train-mode attributes set at seq_crf.py lines 63-104 that the claims
mention (the learning-rate schedule and optimizer objects live in the missing
`base_model` module and are not modelled). -/
structure TrainOut where
  train_loss : Tensor
  update_model : Op
  update_op : Op

/-- The model state `SequenceCRF.__init__` would finish with. -/
structure Model where
  infer : Option InferOut
  train : Option TrainOut
  variable_lookup : List (String × VarRef)
  ckpt_debug_name : String
  ckpt_epoch_name : String
  ckpt_debug_saver : Saver
  ckpt_epoch_saver : Saver

namespace SequenceCRF

/-- `SequenceCRF._compute_loss` (seq_crf.py lines 256-265): the mean over the
batch of `-1.0 *` the CRF log-likelihood. -/
def computeLoss (label predict sequence_length transition_matrix : Tensor) : Tensor :=
  let (log_likelihood, _) :=
    crf_log_likelihood predict label sequence_length transition_matrix
  Tensor.reduceMean (Tensor.mul (Tensor.litNum (-1)) log_likelihood)

/-- The remainder of `SequenceCRF.__init__` after the tuple unpacking of line
46 (seq_crf.py lines 48-125), parameterised over the three unpacked values.
`variable_list` is `tf.get_collection(tf.GraphKeys.TRAINABLE_VARIABLES)`,
given by the names of the trainable variables. -/
def finishInit (hp : Hyperparams) (mode : String) (variable_list : List String)
    (predict predict_mask transition_matrix label sequence_length : Tensor) : Model :=
  let variable_lookup := variable_list.map (fun v => (v, VarRef.raw v))
  let variable_lookup :=
    if hp.train_ema_enable then
      variable_list.map (fun v => (emaAverageName v, VarRef.raw v))
    else variable_lookup
  let inferOut : Option InferOut :=
    if mode = "infer" then
      let (infer_predict, _) := crf_decode predict transition_matrix sequence_length
      some ⟨infer_predict, predict_mask⟩
    else none
  let (trainOut, variable_lookup) :=
    if mode = "train" then
      let train_loss := computeLoss label predict sequence_length transition_matrix
      let train_loss :=
        if hp.train_regularization_enable then
          Tensor.add train_loss Tensor.regularizationLoss
        else train_loss
      let update_model := Op.minimizeLoss train_loss
      if hp.train_ema_enable then
        let update_op := Op.withControlDeps [update_model] (Op.emaApply variable_list)
        ((some ⟨train_loss, update_model, update_op⟩ : Option TrainOut),
          variable_list.map (fun v => (emaAverageName v, VarRef.emaShadow v)))
      else
        ((some ⟨train_loss, update_model, update_model⟩ : Option TrainOut), variable_lookup)
    else (none, variable_lookup)
  let ckpt_debug_dir := hp.train_ckpt_output_dir ++ "/debug"
  let ckpt_epoch_dir := hp.train_ckpt_output_dir ++ "/epoch"
  { infer := inferOut
    train := trainOut
    variable_lookup := variable_lookup
    ckpt_debug_name := ckpt_debug_dir ++ "/model_debug_ckpt"
    ckpt_epoch_name := ckpt_epoch_dir ++ "/model_epoch_ckpt"
    ckpt_debug_saver := ⟨variable_lookup, none⟩
    ckpt_epoch_saver := ⟨variable_lookup, some hp.train_num_epoch⟩ }

/-- `SequenceCRF.__init__` (seq_crf.py lines 21-125): compute
`sequence_length`, build the graph, unpack THREE values from its result
(line 46), and, if that succeeds, run the rest of the constructor. -/
def init (hp : Hyperparams) (pipe : DataPipeline) (variable_list : List String)
    (mode : String) : Except PyError Model := do
  let sequence_length := Tensor.reduceSum pipe.input_label_mask (-1)
  let graphResult := buildGraphResultTuple hp mode pipe.input_text_word
    pipe.input_text_word_mask pipe.input_text_char pipe.input_text_char_mask
  let (predict, predict_mask, transition_matrix) ← unpackThree graphResult
  pure (finishInit hp mode variable_list predict predict_mask transition_matrix
    pipe.input_label sequence_length)

end SequenceCRF

/-- The effect of one successful `saver.save(sess, path, global_step=...)`
call: which saver ran and at which checkpoint path. -/
inductive SaveAction : Type where
  | saved : Saver → String → Nat → SaveAction
deriving DecidableEq

/-- `SequenceCRF.save` (seq_crf.py lines 267-277): dispatch on `save_mode`,
raising `ValueError` on anything other than "debug" or "epoch". -/
def Model.save (m : Model) (global_step : Nat) (save_mode : String) :
    Except PyError SaveAction :=
  if save_mode = "debug" then
    Except.ok (SaveAction.saved m.ckpt_debug_saver m.ckpt_debug_name global_step)
  else if save_mode = "epoch" then
    Except.ok (SaveAction.saved m.ckpt_epoch_saver m.ckpt_epoch_name global_step)
  else
    Except.error (PyError.valueError ("unsupported save mode " ++ save_mode))

mutual
/-- All dropout rates occurring anywhere in a symbolic tensor: the rate of
every dropout layer and the dropout configuration of every convolution,
fusion, recurrent and dense layer the tensor was built from. -/
def Tensor.dropoutRates : Tensor → List Rat
  | Tensor.pipelineInput _ => []
  | Tensor.litNum _ => []
  | Tensor.reduceSum t _ => t.dropoutRates
  | Tensor.reduceMean t => t.dropoutRates
  | Tensor.squeeze t _ => t.dropoutRates
  | Tensor.expandDims t _ => t.dropoutRates
  | Tensor.mul a b => a.dropoutRates ++ b.dropoutRates
  | Tensor.add a b => a.dropoutRates ++ b.dropoutRates
  | Tensor.embedLookup _ t => t.dropoutRates
  | Tensor.dropoutOut r t => r :: t.dropoutRates
  | Tensor.dropoutMaskOut r t => r :: t.dropoutRates
  | Tensor.convOut c t => c.dropoutList ++ t.dropoutRates
  | Tensor.convMaskOut c t => c.dropoutList ++ t.dropoutRates
  | Tensor.poolOut _ _ t => t.dropoutRates
  | Tensor.poolMaskOut _ _ t => t.dropoutRates
  | Tensor.fusionOut c fs ms => c.dropout :: (fs.dropoutRatesL ++ ms.dropoutRatesL)
  | Tensor.fusionMaskOut c fs ms => c.dropout :: (fs.dropoutRatesL ++ ms.dropoutRatesL)
  | Tensor.biRnnOut c a b => c.dropout :: (a.dropoutRates ++ b.dropoutRates)
  | Tensor.biRnnMaskOut c a b => c.dropout :: (a.dropoutRates ++ b.dropoutRates)
  | Tensor.denseOut c a b => c.dropoutList ++ (a.dropoutRates ++ b.dropoutRates)
  | Tensor.denseMaskOut c a b => c.dropoutList ++ (a.dropoutRates ++ b.dropoutRates)
  | Tensor.crfDecodeTags a b c => a.dropoutRates ++ (b.dropoutRates ++ c.dropoutRates)
  | Tensor.crfDecodeScore a b c => a.dropoutRates ++ (b.dropoutRates ++ c.dropoutRates)
  | Tensor.crfLogLikelihood a b c d =>
      a.dropoutRates ++ (b.dropoutRates ++ (c.dropoutRates ++ d.dropoutRates))
  | Tensor.crfTransitionParams a b c d =>
      a.dropoutRates ++ (b.dropoutRates ++ (c.dropoutRates ++ d.dropoutRates))
  | Tensor.regularizationLoss => []

/-- All dropout rates occurring in a list of symbolic tensors. -/
def TensorList.dropoutRatesL : TensorList → List Rat
  | TensorList.nil => []
  | TensorList.cons t ts => t.dropoutRates ++ ts.dropoutRatesL
end

/-- A symbolic graph is deterministic when it contains no source of dropout
randomness: every dropout rate in it is zero (rate-zero dropout is the
identity). -/
def Tensor.deterministic (t : Tensor) : Prop :=
  ∀ r ∈ t.dropoutRates, r = 0

/-- Value-level reading of broadcast `embedding * mask` over one sequence axis
(each position's embedding vector scaled by that position's mask scalar):
the multiplications at seq_crf.py line 361 (`WordFeat.__call__`) and line 422
(`CharFeat.__call__`, per word, after `expand_dims` made the mask a scalar per
char position). `emb` maps a token id to its embedding vector. -/
def embeddingTimesMask (emb : Nat → List Rat) (ids : List Nat) (mask : List Rat) :
    List (List Rat) :=
  (ids.zip mask).map (fun p => (emb p.1).map (fun x => x * p.2))

/-- Value-level reading of `CharFeat.__call__` lines 421-422: the char ids and
the char mask carry an extra (per-word) axis; the expanded mask scales each
char embedding vector by that char position's mask scalar. -/
def charEmbeddingTimesMask (emb : Nat → List Rat) (ids : List (List Nat))
    (mask : List (List Rat)) : List (List (List Rat)) :=
  (ids.zip mask).map (fun p => embeddingTimesMask emb p.1 p.2)

namespace SequenceCRF

/-- The dense projection configuration `_build_modeling_layer` passes to
`create_dense_layer` (closed form). -/
def projectionConfig (hp : Hyperparams) : DenseConfig :=
  ⟨"single", 1, hp.model_projection_unit_dim, 1, "", [0], false, false,
    hp.train_random_seed, hp.model_projection_trainable⟩

/-- The recurrent configuration `_build_modeling_layer` passes to
`create_recurrent_layer` (closed form). -/
def sequenceConfig (hp : Hyperparams) (mode : String) : RnnConfig :=
  ⟨"bi", hp.model_sequence_num_layer, hp.model_sequence_unit_dim,
    hp.model_sequence_cell_type, hp.model_sequence_hidden_activation,
    (if mode = "train" then hp.model_sequence_dropout else 0),
    hp.model_sequence_forget_bias, hp.model_sequence_residual_connect,
    hp.train_random_seed, hp.model_sequence_trainable⟩

/-- The fusion configuration `_build_representation_layer` passes to
`FusionModule` (closed form): its input dimension is the sum of the enabled
streams' dimensions. -/
def reprFusionConfig (hp : Hyperparams) (mode : String) : FusionConfig :=
  ⟨(if hp.model_word_feat_enable then hp.model_word_embed_dim else 0) +
      (if hp.model_char_feat_enable then hp.model_char_unit_dim else 0),
    hp.model_fusion_unit_dim, hp.model_fusion_type, hp.model_fusion_num_layer,
    hp.model_fusion_hidden_activation,
    (if mode = "train" then hp.model_fusion_dropout else 0),
    hp.train_random_seed, hp.model_fusion_trainable⟩

/-- The feature streams `_build_representation_layer` collects (closed form):
the word-level stream when enabled, then the char-level stream when enabled. -/
def reprFeatStreams (hp : Hyperparams) (mode : String)
    (text_word text_word_mask text_char text_char_mask : Tensor) : List Tensor :=
  (if hp.model_word_feat_enable then [((wordFeatLayer hp mode).call text_word text_word_mask).1]
   else []) ++
  (if hp.model_char_feat_enable then [((charFeatLayer hp mode).call text_char text_char_mask).1]
   else [])

/-- The feature-stream masks `_build_representation_layer` collects (closed
form), in the same order as `reprFeatStreams`. -/
def reprMaskStreams (hp : Hyperparams) (mode : String)
    (text_word text_word_mask text_char text_char_mask : Tensor) : List Tensor :=
  (if hp.model_word_feat_enable then [((wordFeatLayer hp mode).call text_word text_word_mask).2]
   else []) ++
  (if hp.model_char_feat_enable then [((charFeatLayer hp mode).call text_char text_char_mask).2]
   else [])

theorem buildRepresentationLayer_eq (hp : Hyperparams) (mode : String)
    (tw twm tc tcm : Tensor) :
    buildRepresentationLayer hp mode tw twm tc tcm =
      FusionModule.call (reprFusionConfig hp mode)
        (reprFeatStreams hp mode tw twm tc tcm)
        (reprMaskStreams hp mode tw twm tc tcm) := by
  cases hw : hp.model_word_feat_enable <;> cases hc : hp.model_char_feat_enable <;>
    simp [buildRepresentationLayer, reprFusionConfig, reprFeatStreams, reprMaskStreams,
      FusionModule.call, hw, hc]

theorem buildGraph_eq (hp : Hyperparams) (mode : String) (tw twm tc tcm : Tensor) :
    buildGraph hp mode tw twm tc tcm =
      (Tensor.denseOut (projectionConfig hp)
        (Tensor.biRnnOut (sequenceConfig hp mode)
          (Tensor.fusionOut (reprFusionConfig hp mode)
            (TensorList.ofList (reprFeatStreams hp mode tw twm tc tcm))
            (TensorList.ofList (reprMaskStreams hp mode tw twm tc tcm)))
          (Tensor.fusionMaskOut (reprFusionConfig hp mode)
            (TensorList.ofList (reprFeatStreams hp mode tw twm tc tcm))
            (TensorList.ofList (reprMaskStreams hp mode tw twm tc tcm))))
        (Tensor.biRnnMaskOut (sequenceConfig hp mode)
          (Tensor.fusionOut (reprFusionConfig hp mode)
            (TensorList.ofList (reprFeatStreams hp mode tw twm tc tcm))
            (TensorList.ofList (reprMaskStreams hp mode tw twm tc tcm)))
          (Tensor.fusionMaskOut (reprFusionConfig hp mode)
            (TensorList.ofList (reprFeatStreams hp mode tw twm tc tcm))
            (TensorList.ofList (reprMaskStreams hp mode tw twm tc tcm)))),
       Tensor.denseMaskOut (projectionConfig hp)
        (Tensor.biRnnOut (sequenceConfig hp mode)
          (Tensor.fusionOut (reprFusionConfig hp mode)
            (TensorList.ofList (reprFeatStreams hp mode tw twm tc tcm))
            (TensorList.ofList (reprMaskStreams hp mode tw twm tc tcm)))
          (Tensor.fusionMaskOut (reprFusionConfig hp mode)
            (TensorList.ofList (reprFeatStreams hp mode tw twm tc tcm))
            (TensorList.ofList (reprMaskStreams hp mode tw twm tc tcm))))
        (Tensor.biRnnMaskOut (sequenceConfig hp mode)
          (Tensor.fusionOut (reprFusionConfig hp mode)
            (TensorList.ofList (reprFeatStreams hp mode tw twm tc tcm))
            (TensorList.ofList (reprMaskStreams hp mode tw twm tc tcm)))
          (Tensor.fusionMaskOut (reprFusionConfig hp mode)
            (TensorList.ofList (reprFeatStreams hp mode tw twm tc tcm))
            (TensorList.ofList (reprMaskStreams hp mode tw twm tc tcm))))) := by
  rw [buildGraph, buildRepresentationLayer_eq]
  simp [buildModelingLayer, FusionModule.call, projectionConfig, sequenceConfig]

end SequenceCRF

/-- The variable lookup both savers are constructed over, as a function of the
mode and the EMA flag (closed form of the successive reassignments at
seq_crf.py lines 49, 53 and 102). -/
def finalVariableLookup (hp : Hyperparams) (mode : String) (variable_list : List String) :
    List (String × VarRef) :=
  if hp.train_ema_enable then
    (if mode = "train" then
      variable_list.map (fun v => (emaAverageName v, VarRef.emaShadow v))
    else
      variable_list.map (fun v => (emaAverageName v, VarRef.raw v)))
  else
    variable_list.map (fun v => (v, VarRef.raw v))

namespace SequenceCRF

theorem finishInit_infer_eq (hp : Hyperparams) (vl : List String)
    (p pm tm lab sl : Tensor) :
    (finishInit hp "infer" vl p pm tm lab sl).infer =
      some ⟨Tensor.crfDecodeTags p tm sl, pm⟩ ∧
    (finishInit hp "infer" vl p pm tm lab sl).train = none := by
  constructor <;> simp [finishInit, crf_decode]

theorem finishInit_train_eq (hp : Hyperparams) (vl : List String)
    (p pm tm lab sl : Tensor) :
    ∃ t : TrainOut,
      (finishInit hp "train" vl p pm tm lab sl).train = some t ∧
      t.train_loss =
        (if hp.train_regularization_enable then
          Tensor.add (computeLoss lab p sl tm) Tensor.regularizationLoss
        else computeLoss lab p sl tm) ∧
      t.update_model = Op.minimizeLoss t.train_loss ∧
      t.update_op =
        (if hp.train_ema_enable then
          Op.withControlDeps [t.update_model] (Op.emaApply vl)
        else t.update_model) ∧
      (finishInit hp "train" vl p pm tm lab sl).infer = none := by
  cases hr : hp.train_regularization_enable <;> cases he : hp.train_ema_enable
  · exact ⟨⟨computeLoss lab p sl tm, Op.minimizeLoss (computeLoss lab p sl tm),
      Op.minimizeLoss (computeLoss lab p sl tm)⟩,
      by simp [finishInit, hr, he], by simp [hr], rfl, by simp [he],
      by simp [finishInit, hr, he]⟩
  · exact ⟨⟨computeLoss lab p sl tm, Op.minimizeLoss (computeLoss lab p sl tm),
      Op.withControlDeps [Op.minimizeLoss (computeLoss lab p sl tm)] (Op.emaApply vl)⟩,
      by simp [finishInit, hr, he], by simp [hr], rfl, by simp [he],
      by simp [finishInit, hr, he]⟩
  · exact ⟨⟨Tensor.add (computeLoss lab p sl tm) Tensor.regularizationLoss,
      Op.minimizeLoss (Tensor.add (computeLoss lab p sl tm) Tensor.regularizationLoss),
      Op.minimizeLoss (Tensor.add (computeLoss lab p sl tm) Tensor.regularizationLoss)⟩,
      by simp [finishInit, hr, he], by simp [hr], rfl, by simp [he],
      by simp [finishInit, hr, he]⟩
  · exact ⟨⟨Tensor.add (computeLoss lab p sl tm) Tensor.regularizationLoss,
      Op.minimizeLoss (Tensor.add (computeLoss lab p sl tm) Tensor.regularizationLoss),
      Op.withControlDeps
        [Op.minimizeLoss (Tensor.add (computeLoss lab p sl tm) Tensor.regularizationLoss)]
        (Op.emaApply vl)⟩,
      by simp [finishInit, hr, he], by simp [hr], rfl, by simp [he],
      by simp [finishInit, hr, he]⟩

theorem finishInit_saver_eq (hp : Hyperparams) (mode : String) (vl : List String)
    (p pm tm lab sl : Tensor) :
    (finishInit hp mode vl p pm tm lab sl).variable_lookup =
      finalVariableLookup hp mode vl ∧
    (finishInit hp mode vl p pm tm lab sl).ckpt_debug_saver =
      ⟨finalVariableLookup hp mode vl, none⟩ ∧
    (finishInit hp mode vl p pm tm lab sl).ckpt_epoch_saver =
      ⟨finalVariableLookup hp mode vl, some hp.train_num_epoch⟩ ∧
    (finishInit hp mode vl p pm tm lab sl).ckpt_debug_name =
      (hp.train_ckpt_output_dir ++ "/debug") ++ "/model_debug_ckpt" ∧
    (finishInit hp mode vl p pm tm lab sl).ckpt_epoch_name =
      (hp.train_ckpt_output_dir ++ "/epoch") ++ "/model_epoch_ckpt" := by
  by_cases hm : mode = "train" <;> cases he : hp.train_ema_enable <;>
    cases hr : hp.train_regularization_enable <;>
    simp [finishInit, finalVariableLookup, hm, he, hr]

end SequenceCRF

theorem embeddingTimesMask_getD_zero (emb : Nat → List Rat) (ids : List Nat)
    (mask : List Rat) (i : Nat) (h : mask.getD i 1 = 0) :
    ∀ x ∈ (embeddingTimesMask emb ids mask).getD i [], x = 0 := by
  induction ids generalizing mask i with
  | nil => intro x hx; simp [embeddingTimesMask] at hx
  | cons a as ih =>
    cases mask with
    | nil => simp at h
    | cons m ms =>
      cases i with
      | zero =>
        simp at h
        intro x hx
        simp [embeddingTimesMask] at hx
        rcases hx with ⟨y, -, rfl⟩
        rw [h, mul_zero]
      | succ n =>
        have h' : ms.getD n 1 = 0 := by simpa using h
        simpa [embeddingTimesMask] using ih ms n h'

theorem charEmbeddingTimesMask_getD_zero (emb : Nat → List Rat) (ids : List (List Nat))
    (mask : List (List Rat)) (i j : Nat) (h : (mask.getD i []).getD j 1 = 0) :
    ∀ x ∈ ((charEmbeddingTimesMask emb ids mask).getD i []).getD j [], x = 0 := by
  induction ids generalizing mask i with
  | nil => intro x hx; simp [charEmbeddingTimesMask] at hx
  | cons a as ih =>
    cases mask with
    | nil => simp at h
    | cons m ms =>
      cases i with
      | zero =>
        have h' : m.getD j 1 = 0 := by simpa using h
        simpa [charEmbeddingTimesMask] using embeddingTimesMask_getD_zero emb a m j h'
      | succ n =>
        have h' : (ms.getD n []).getD j 1 = 0 := by simpa using h
        simpa [charEmbeddingTimesMask] using ih ms n h'

namespace SequenceCRF

/-- C1: for every construction of `SequenceCRF`, the prediction graph is
composed in the fixed order embedding featurization → fusion → bidirectional
recurrent layer ("bi") → single dense projection layer ("single", one layer),
and the resulting score tensor is what the CRF output layer consumes: in infer
mode it is decoded with `crf_decode`, and the training loss applies
`crf_log_likelihood` to it.  The fusion inputs are pinned: they are exactly
the enable-conditioned word-then-char feature streams, and each stream head is
the embedding featurization of its layer (embedding lookup, mask multiply,
then dropout resp. convolution and pooling). -/
theorem buildGraph_layer_order (hp : Hyperparams) (mode : String)
    (tw twm tc tcm : Tensor) :
    ∃ (dCfg : DenseConfig) (rCfg : RnnConfig) (fCfg : FusionConfig),
      (buildGraph hp mode tw twm tc tcm).1 =
        Tensor.denseOut dCfg
          (Tensor.biRnnOut rCfg
            (Tensor.fusionOut fCfg
              (TensorList.ofList (reprFeatStreams hp mode tw twm tc tcm))
              (TensorList.ofList (reprMaskStreams hp mode tw twm tc tcm)))
            (Tensor.fusionMaskOut fCfg
              (TensorList.ofList (reprFeatStreams hp mode tw twm tc tcm))
              (TensorList.ofList (reprMaskStreams hp mode tw twm tc tcm))))
          (Tensor.biRnnMaskOut rCfg
            (Tensor.fusionOut fCfg
              (TensorList.ofList (reprFeatStreams hp mode tw twm tc tcm))
              (TensorList.ofList (reprMaskStreams hp mode tw twm tc tcm)))
            (Tensor.fusionMaskOut fCfg
              (TensorList.ofList (reprFeatStreams hp mode tw twm tc tcm))
              (TensorList.ofList (reprMaskStreams hp mode tw twm tc tcm)))) ∧
      rCfg.direction = "bi" ∧ dCfg.dense_type = "single" ∧ dCfg.num_layer = 1 ∧
      reprFeatStreams hp mode tw twm tc tcm =
        (if hp.model_word_feat_enable then
          [((wordFeatLayer hp mode).call tw twm).1] else []) ++
        (if hp.model_char_feat_enable then
          [((charFeatLayer hp mode).call tc tcm).1] else []) ∧
      reprMaskStreams hp mode tw twm tc tcm =
        (if hp.model_word_feat_enable then
          [((wordFeatLayer hp mode).call tw twm).2] else []) ++
        (if hp.model_char_feat_enable then
          [((charFeatLayer hp mode).call tc tcm).2] else []) ∧
      ((wordFeatLayer hp mode).call tw twm).1 =
        Tensor.dropoutOut (wordFeatLayer hp mode).dropout
          (Tensor.mul
            (Tensor.squeeze (Tensor.embedLookup
              ⟨hp.data_word_vocab_size, hp.model_word_embed_dim,
                hp.model_word_embed_pretrained, hp.train_random_seed,
                hp.model_word_feat_trainable⟩ tw) (-2))
            twm) ∧
      ((charFeatLayer hp mode).call tc tcm).1 =
        Tensor.poolOut hp.model_char_pooling_type (-1)
          (Tensor.convOut
            ⟨"stacked_multi_1d", 1, hp.model_char_embed_dim, hp.model_char_unit_dim,
              hp.model_char_window_size, 1, "SAME", hp.model_char_hidden_activation,
              [(charFeatLayer hp mode).dropout], false, false, hp.train_random_seed,
              hp.model_char_feat_trainable⟩
            (Tensor.mul
              (Tensor.embedLookup
                ⟨hp.data_char_vocab_size, hp.model_char_embed_dim, false,
                  hp.train_random_seed, hp.model_char_feat_trainable⟩ tc)
              (Tensor.expandDims tcm (-1)))) ∧
      (∀ (vl : List String) (pm tm lab sl : Tensor),
        (finishInit hp "infer" vl ((buildGraph hp mode tw twm tc tcm).1) pm tm lab sl).infer =
          some ⟨(crf_decode ((buildGraph hp mode tw twm tc tcm).1) tm sl).1, pm⟩) ∧
      (∀ (lab sl tm : Tensor),
        computeLoss lab ((buildGraph hp mode tw twm tc tcm).1) sl tm =
          Tensor.reduceMean (Tensor.mul (Tensor.litNum (-1))
            (crf_log_likelihood ((buildGraph hp mode tw twm tc tcm).1) lab sl tm).1)) := by
  refine ⟨projectionConfig hp, sequenceConfig hp mode, reprFusionConfig hp mode,
    ?_, rfl, rfl, rfl, rfl, rfl, rfl, rfl, ?_, ?_⟩
  · rw [buildGraph_eq]
  · intro vl pm tm lab sl
    exact (finishInit_infer_eq hp vl ((buildGraph hp mode tw twm tc tcm).1) pm tm lab sl).1
  · intro lab sl tm
    rfl

/-- C2: `_build_graph` returns the two-tuple `(predict, predict_mask)`, but
`__init__` unpacks three values from it, so every construction of
`SequenceCRF` raises `ValueError` at the unpacking step, before any loss,
decoding or checkpointing machinery is set up. -/
theorem init_unpacking_failure (hp : Hyperparams) (pipe : DataPipeline)
    (vl : List String) (mode : String) :
    (buildGraphResultTuple hp mode pipe.input_text_word pipe.input_text_word_mask
        pipe.input_text_char pipe.input_text_char_mask).length = 2 ∧
    init hp pipe vl mode =
      Except.error (PyError.valueError "not enough values to unpack") :=
  ⟨rfl, rfl⟩

/-- C3: in mode "train", `_compute_loss` is the mean of the negated CRF
log-likelihood of (scores, labels, lengths, transition matrix), the train loss
equals it with the regularization loss added exactly when
`train_regularization_enable` is set, and otherwise equals it exactly. -/
theorem train_loss_spec (hp : Hyperparams) (vl : List String)
    (p pm tm lab sl : Tensor) :
    computeLoss lab p sl tm =
      Tensor.reduceMean (Tensor.mul (Tensor.litNum (-1))
        (crf_log_likelihood p lab sl tm).1) ∧
    ∃ t : TrainOut,
      (finishInit hp "train" vl p pm tm lab sl).train = some t ∧
      t.train_loss =
        (if hp.train_regularization_enable then
          Tensor.add (computeLoss lab p sl tm) Tensor.regularizationLoss
        else computeLoss lab p sl tm) := by
  refine ⟨rfl, ?_⟩
  obtain ⟨t, h1, h2, -⟩ := finishInit_train_eq hp vl p pm tm lab sl
  exact ⟨t, h1, h2⟩

/-- C4: in mode "infer", `infer_predict` is the decoded-tags output of
`crf_decode(predict, transition_matrix, sequence_length)`,
`infer_predict_mask` is the mask returned by the prediction graph, and no
loss or optimizer is constructed (the train block is absent). -/
theorem infer_mode_spec (hp : Hyperparams) (vl : List String)
    (p pm tm lab sl : Tensor) :
    (finishInit hp "infer" vl p pm tm lab sl).infer =
      some ⟨(crf_decode p tm sl).1, pm⟩ ∧
    (crf_decode p tm sl).1 = Tensor.crfDecodeTags p tm sl ∧
    (finishInit hp "infer" vl p pm tm lab sl).train = none :=
  ⟨(finishInit_infer_eq hp vl p pm tm lab sl).1, rfl,
    (finishInit_infer_eq hp vl p pm tm lab sl).2⟩

end SequenceCRF

namespace SequenceCRF
/-- C5: with EMA enabled in mode "train", `update_op` is `ema.apply` over the
trainable variable list created under a control dependency on `update_model`,
so the EMA shadow update runs only after the optimizer update. -/
theorem ema_update_after_optimizer (hp : Hyperparams) (vl : List String)
    (p pm tm lab sl : Tensor) (hema : hp.train_ema_enable = true) :
    ∃ t : TrainOut,
      (finishInit hp "train" vl p pm tm lab sl).train = some t ∧
      t.update_op = Op.withControlDeps [t.update_model] (Op.emaApply vl) ∧
      t.update_model = Op.minimizeLoss t.train_loss := by
  obtain ⟨t, h1, -, h3, h4, -⟩ := finishInit_train_eq hp vl p pm tm lab sl
  refine ⟨t, h1, ?_, h3⟩
  rw [h4, hema]
  simp

/-- C6: with EMA enabled, both savers are keyed by EMA average names: in mode
"train" each average name maps to the EMA shadow value, and in mode "infer"
each average name maps to the raw trainable variable. -/
theorem ema_saver_lookup (hp : Hyperparams) (vl : List String)
    (p pm tm lab sl : Tensor) (hema : hp.train_ema_enable = true) :
    ((finishInit hp "train" vl p pm tm lab sl).ckpt_debug_saver.var_lookup =
        vl.map (fun v => (emaAverageName v, VarRef.emaShadow v)) ∧
      (finishInit hp "train" vl p pm tm lab sl).ckpt_epoch_saver.var_lookup =
        vl.map (fun v => (emaAverageName v, VarRef.emaShadow v))) ∧
    ((finishInit hp "infer" vl p pm tm lab sl).ckpt_debug_saver.var_lookup =
        vl.map (fun v => (emaAverageName v, VarRef.raw v)) ∧
      (finishInit hp "infer" vl p pm tm lab sl).ckpt_epoch_saver.var_lookup =
        vl.map (fun v => (emaAverageName v, VarRef.raw v))) := by
  obtain ⟨-, hd1, he1, -, -⟩ := finishInit_saver_eq hp "train" vl p pm tm lab sl
  obtain ⟨-, hd2, he2, -, -⟩ := finishInit_saver_eq hp "infer" vl p pm tm lab sl
  rw [hd1, he1, hd2, he2]
  simp [finalVariableLookup, hema]

/-- C7: `save` dispatches on `save_mode`: "debug" saves via the debug saver to
the debug checkpoint path, "epoch" via the epoch saver to the epoch checkpoint
path, anything else raises `ValueError`; and the epoch saver retains at most
`train_num_epoch` checkpoints. -/
theorem save_dispatch (hp : Hyperparams) (mode : String) (vl : List String)
    (p pm tm lab sl : Tensor) (gs : Nat) (sm : String) :
    (sm = "debug" →
      (finishInit hp mode vl p pm tm lab sl).save gs sm =
        Except.ok (SaveAction.saved
          (finishInit hp mode vl p pm tm lab sl).ckpt_debug_saver
          (finishInit hp mode vl p pm tm lab sl).ckpt_debug_name gs)) ∧
    (sm = "epoch" →
      (finishInit hp mode vl p pm tm lab sl).save gs sm =
        Except.ok (SaveAction.saved
          (finishInit hp mode vl p pm tm lab sl).ckpt_epoch_saver
          (finishInit hp mode vl p pm tm lab sl).ckpt_epoch_name gs)) ∧
    (sm ≠ "debug" → sm ≠ "epoch" →
      (finishInit hp mode vl p pm tm lab sl).save gs sm =
        Except.error (PyError.valueError ("unsupported save mode " ++ sm))) ∧
    (finishInit hp mode vl p pm tm lab sl).ckpt_epoch_saver.max_to_keep =
      some hp.train_num_epoch ∧
    (finishInit hp mode vl p pm tm lab sl).ckpt_debug_name =
      (hp.train_ckpt_output_dir ++ "/debug") ++ "/model_debug_ckpt" ∧
    (finishInit hp mode vl p pm tm lab sl).ckpt_epoch_name =
      (hp.train_ckpt_output_dir ++ "/epoch") ++ "/model_epoch_ckpt" := by
  obtain ⟨-, -, he, hn1, hn2⟩ := finishInit_saver_eq hp mode vl p pm tm lab sl
  refine ⟨?_, ?_, ?_, ?_, hn1, hn2⟩
  · intro h; simp [Model.save, h]
  · intro h; simp [Model.save, h]
  · intro h1 h2; simp [Model.save, h1, h2]
  · rw [he]

/-- C8: the fusion module receives exactly the enabled feature streams, word
stream first then char stream, and its declared input dimension is the sum of
the enabled streams' dimensions. -/
theorem fusion_input_streams (hp : Hyperparams) (mode : String)
    (tw twm tc tcm : Tensor) :
    ∃ cfg : FusionConfig,
      (buildRepresentationLayer hp mode tw twm tc tcm).1 =
        Tensor.fusionOut cfg
          (TensorList.ofList
            ((if hp.model_word_feat_enable then
                [((wordFeatLayer hp mode).call tw twm).1] else []) ++
             (if hp.model_char_feat_enable then
                [((charFeatLayer hp mode).call tc tcm).1] else [])))
          (TensorList.ofList
            ((if hp.model_word_feat_enable then
                [((wordFeatLayer hp mode).call tw twm).2] else []) ++
             (if hp.model_char_feat_enable then
                [((charFeatLayer hp mode).call tc tcm).2] else []))) ∧
      cfg.input_unit_dim =
        (if hp.model_word_feat_enable then hp.model_word_embed_dim else 0) +
        (if hp.model_char_feat_enable then hp.model_char_unit_dim else 0) :=
  ⟨reprFusionConfig hp mode, by rw [buildRepresentationLayer_eq]; rfl, rfl⟩

/-- C9: in every mode other than "train", every dropout rate occurring in the
built prediction graph (the rates handed to the word, char, fusion and
sequence-modeling layers included) is exactly 0, so for dropout-free inputs
the graph has no source of dropout randomness. -/
theorem nontrain_dropout_zero (hp : Hyperparams) (mode : String)
    (tw twm tc tcm : Tensor) (hmode : mode ≠ "train")
    (h1 : tw.dropoutRates = []) (h2 : twm.dropoutRates = [])
    (h3 : tc.dropoutRates = []) (h4 : tcm.dropoutRates = []) :
    Tensor.deterministic ((buildGraph hp mode tw twm tc tcm).1) ∧
    Tensor.deterministic ((buildGraph hp mode tw twm tc tcm).2) := by
  cases hw : hp.model_word_feat_enable <;> cases hc : hp.model_char_feat_enable <;>
    constructor <;>
    · intro r hr
      rw [buildGraph_eq] at hr
      simp [reprFeatStreams, reprMaskStreams, hw, hc,
        Tensor.dropoutRates, TensorList.dropoutRatesL, TensorList.ofList,
        WordFeat.call, CharFeat.call, wordFeatLayer, charFeatLayer,
        sequenceConfig, projectionConfig, reprFusionConfig,
        h1, h2, h3, h4, hmode] at hr
      tauto

end SequenceCRF

/-- C10: in both `WordFeat.__call__` and `CharFeat.__call__` the embedding
output is multiplied elementwise by the (expanded) input mask before any
further processing (before dropout resp. convolution), and at the value level
every entry of a masked-out position's feature vector is exactly zero. -/
theorem feat_mask_zeroing (emb : Nat → List Rat) (ids : List Nat) (mask : List Rat)
    (cids : List (List Nat)) (cmask : List (List Rat)) (i j : Nat)
    (hwm : mask.getD i 1 = 0) (hcm : (cmask.getD i []).getD j 1 = 0) :
    (∀ (l : WordFeat) (w wm : Tensor),
      (l.call w wm).1 =
        Tensor.dropoutOut l.dropout
          (Tensor.mul
            (Tensor.squeeze (Tensor.embedLookup
              ⟨l.vocab_size, l.embed_dim, l.pretrained, l.random_seed, l.trainable⟩ w) (-2))
            wm)) ∧
    (∀ (l : CharFeat) (c cm : Tensor),
      (l.call c cm).1 =
        Tensor.poolOut l.pooling_type (-1)
          (Tensor.convOut
            ⟨"stacked_multi_1d", 1, l.embed_dim, l.unit_dim, l.window_size, 1, "SAME",
              l.activation, [l.dropout], false, false, l.random_seed, l.trainable⟩
            (Tensor.mul
              (Tensor.embedLookup
                ⟨l.vocab_size, l.embed_dim, false, l.random_seed, l.trainable⟩ c)
              (Tensor.expandDims cm (-1))))) ∧
    (∀ x ∈ (embeddingTimesMask emb ids mask).getD i [], x = 0) ∧
    (∀ x ∈ ((charEmbeddingTimesMask emb cids cmask).getD i []).getD j [], x = 0) :=
  ⟨fun _ _ _ => rfl, fun _ _ _ => rfl,
    embeddingTimesMask_getD_zero emb ids mask i hwm,
    charEmbeddingTimesMask_getD_zero emb cids cmask i j hcm⟩

/-- A concrete hyperparameter setting (EMA enabled, regularization disabled,
both feature streams enabled) used to instantiate the theorems. -/
def exampleHyperparams : Hyperparams :=
  { data_word_vocab_size := 100
    model_word_embed_dim := 8
    model_word_dropout := 1/2
    model_word_embed_pretrained := false
    model_word_feat_trainable := true
    model_word_feat_enable := true
    data_char_vocab_size := 30
    model_char_embed_dim := 4
    model_char_unit_dim := 6
    model_char_window_size := 3
    model_char_hidden_activation := "relu"
    model_char_dropout := 1/5
    model_char_pooling_type := "max"
    model_char_feat_trainable := true
    model_char_feat_enable := true
    model_fusion_type := "concate"
    model_fusion_num_layer := 1
    model_fusion_unit_dim := 14
    model_fusion_hidden_activation := "relu"
    model_fusion_dropout := 1/10
    model_fusion_trainable := true
    model_sequence_num_layer := 1
    model_sequence_unit_dim := 16
    model_sequence_cell_type := "lstm"
    model_sequence_hidden_activation := "tanh"
    model_sequence_dropout := 1/10
    model_sequence_forget_bias := 1
    model_sequence_residual_connect := false
    model_sequence_trainable := true
    model_projection_unit_dim := 5
    model_projection_trainable := true
    train_random_seed := 42
    train_ema_enable := true
    train_ema_decay_rate := 9/10
    train_regularization_enable := false
    train_num_epoch := 3
    train_ckpt_output_dir := "output" }

/-- A concrete symbolic input tensor used to instantiate the theorems. -/
def exampleTensor : Tensor := Tensor.pipelineInput "t"

/-- Witness for C5 at a concrete hyperparameter setting with EMA enabled. -/
theorem ema_update_after_optimizer_witness :
    exampleHyperparams.train_ema_enable = true ∧
    ∃ t : TrainOut,
      (SequenceCRF.finishInit exampleHyperparams "train" ["v"] exampleTensor exampleTensor
        exampleTensor exampleTensor exampleTensor).train = some t ∧
      t.update_op = Op.withControlDeps [t.update_model] (Op.emaApply ["v"]) ∧
      t.update_model = Op.minimizeLoss t.train_loss :=
  ⟨rfl, SequenceCRF.ema_update_after_optimizer exampleHyperparams ["v"] exampleTensor
    exampleTensor exampleTensor exampleTensor exampleTensor rfl⟩

/-- Witness for C6 at a concrete hyperparameter setting with EMA enabled. -/
theorem ema_saver_lookup_witness :
    exampleHyperparams.train_ema_enable = true ∧
    (((SequenceCRF.finishInit exampleHyperparams "train" ["v"] exampleTensor exampleTensor
          exampleTensor exampleTensor exampleTensor).ckpt_debug_saver.var_lookup =
        ["v"].map (fun v => (emaAverageName v, VarRef.emaShadow v)) ∧
      (SequenceCRF.finishInit exampleHyperparams "train" ["v"] exampleTensor exampleTensor
          exampleTensor exampleTensor exampleTensor).ckpt_epoch_saver.var_lookup =
        ["v"].map (fun v => (emaAverageName v, VarRef.emaShadow v))) ∧
    ((SequenceCRF.finishInit exampleHyperparams "infer" ["v"] exampleTensor exampleTensor
          exampleTensor exampleTensor exampleTensor).ckpt_debug_saver.var_lookup =
        ["v"].map (fun v => (emaAverageName v, VarRef.raw v)) ∧
      (SequenceCRF.finishInit exampleHyperparams "infer" ["v"] exampleTensor exampleTensor
          exampleTensor exampleTensor exampleTensor).ckpt_epoch_saver.var_lookup =
        ["v"].map (fun v => (emaAverageName v, VarRef.raw v)))) :=
  ⟨rfl, SequenceCRF.ema_saver_lookup exampleHyperparams ["v"] exampleTensor exampleTensor
    exampleTensor exampleTensor exampleTensor rfl⟩

/-- Witness for C7 at a concrete model, global step 7 and save mode "debug". -/
theorem save_dispatch_witness :
    (("debug" : String) = "debug" →
      (SequenceCRF.finishInit exampleHyperparams "train" ["v"] exampleTensor exampleTensor
          exampleTensor exampleTensor exampleTensor).save 7 "debug" =
        Except.ok (SaveAction.saved
          (SequenceCRF.finishInit exampleHyperparams "train" ["v"] exampleTensor exampleTensor
            exampleTensor exampleTensor exampleTensor).ckpt_debug_saver
          (SequenceCRF.finishInit exampleHyperparams "train" ["v"] exampleTensor exampleTensor
            exampleTensor exampleTensor exampleTensor).ckpt_debug_name 7)) ∧
    (("debug" : String) = "epoch" →
      (SequenceCRF.finishInit exampleHyperparams "train" ["v"] exampleTensor exampleTensor
          exampleTensor exampleTensor exampleTensor).save 7 "debug" =
        Except.ok (SaveAction.saved
          (SequenceCRF.finishInit exampleHyperparams "train" ["v"] exampleTensor exampleTensor
            exampleTensor exampleTensor exampleTensor).ckpt_epoch_saver
          (SequenceCRF.finishInit exampleHyperparams "train" ["v"] exampleTensor exampleTensor
            exampleTensor exampleTensor exampleTensor).ckpt_epoch_name 7)) ∧
    (("debug" : String) ≠ "debug" → ("debug" : String) ≠ "epoch" →
      (SequenceCRF.finishInit exampleHyperparams "train" ["v"] exampleTensor exampleTensor
          exampleTensor exampleTensor exampleTensor).save 7 "debug" =
        Except.error (PyError.valueError ("unsupported save mode " ++ "debug"))) ∧
    (SequenceCRF.finishInit exampleHyperparams "train" ["v"] exampleTensor exampleTensor
        exampleTensor exampleTensor exampleTensor).ckpt_epoch_saver.max_to_keep =
      some exampleHyperparams.train_num_epoch ∧
    (SequenceCRF.finishInit exampleHyperparams "train" ["v"] exampleTensor exampleTensor
        exampleTensor exampleTensor exampleTensor).ckpt_debug_name =
      (exampleHyperparams.train_ckpt_output_dir ++ "/debug") ++ "/model_debug_ckpt" ∧
    (SequenceCRF.finishInit exampleHyperparams "train" ["v"] exampleTensor exampleTensor
        exampleTensor exampleTensor exampleTensor).ckpt_epoch_name =
      (exampleHyperparams.train_ckpt_output_dir ++ "/epoch") ++ "/model_epoch_ckpt" :=
  SequenceCRF.save_dispatch exampleHyperparams "train" ["v"] exampleTensor exampleTensor
    exampleTensor exampleTensor exampleTensor 7 "debug"

/-- Witness for C9 at a concrete hyperparameter setting, mode "infer" and
dropout-free concrete input tensors. -/
theorem nontrain_dropout_zero_witness :
    ("infer" : String) ≠ "train" ∧
    exampleTensor.dropoutRates = [] ∧
    (Tensor.deterministic
      ((SequenceCRF.buildGraph exampleHyperparams "infer" exampleTensor exampleTensor
        exampleTensor exampleTensor).1) ∧
     Tensor.deterministic
      ((SequenceCRF.buildGraph exampleHyperparams "infer" exampleTensor exampleTensor
        exampleTensor exampleTensor).2)) :=
  ⟨by decide, rfl,
    SequenceCRF.nontrain_dropout_zero exampleHyperparams "infer" exampleTensor exampleTensor
      exampleTensor exampleTensor (by decide) rfl rfl rfl rfl⟩

/-- Witness for C10 at a concrete embedding table, token ids and masks, with
position 0 (and char position (0,0)) masked out. -/
theorem feat_mask_zeroing_witness :
    ([(0 : Rat)].getD 0 1 = 0) ∧
    (([[(0 : Rat)]].getD 0 []).getD 0 1 = 0) ∧
    ((∀ (l : WordFeat) (w wm : Tensor),
      (l.call w wm).1 =
        Tensor.dropoutOut l.dropout
          (Tensor.mul
            (Tensor.squeeze (Tensor.embedLookup
              ⟨l.vocab_size, l.embed_dim, l.pretrained, l.random_seed, l.trainable⟩ w) (-2))
            wm)) ∧
    (∀ (l : CharFeat) (c cm : Tensor),
      (l.call c cm).1 =
        Tensor.poolOut l.pooling_type (-1)
          (Tensor.convOut
            ⟨"stacked_multi_1d", 1, l.embed_dim, l.unit_dim, l.window_size, 1, "SAME",
              l.activation, [l.dropout], false, false, l.random_seed, l.trainable⟩
            (Tensor.mul
              (Tensor.embedLookup
                ⟨l.vocab_size, l.embed_dim, false, l.random_seed, l.trainable⟩ c)
              (Tensor.expandDims cm (-1))))) ∧
    (∀ x ∈ (embeddingTimesMask (fun _ => [1, 2]) [5] [0]).getD 0 [], x = 0) ∧
    (∀ x ∈ ((charEmbeddingTimesMask (fun _ => [1, 2]) [[3]] [[0]]).getD 0 []).getD 0 [],
      x = 0)) :=
  ⟨rfl, rfl, feat_mask_zeroing (fun _ => [1, 2]) [5] [0] [[3]] [[0]] 0 0 rfl rfl⟩
